import Mathlib

/-!
# Verification of the sticky-mitten avatar control core

Shallow embedding of `sticky_mitten_avatar/avatars/avatar.py` and
`sticky_mitten_avatar/util.py`.

Conventions of the embedding:

* The avatar state machine (goals, frames, commands) is embedded over `ℚ`:
  every numeric value the Python code stores is a float, i.e. a rational.
  A comparison `np.linalg.norm(v) < t` between non-negative reals is embedded
  as the equivalent comparison `distSq v < t^2` on squared norms, so that all
  predicates stay decidable; bridge theorems relate these to the real-valued
  `Real.sqrt` distances where a claim speaks of Euclidean distance.
* The geometry utilities (`get_angle_between`, `rotate_point_around`) are
  embedded over `ℝ` because they use transcendental functions.
* Fallible operations (Python `assert` / `raise`) return `Except String`;
  the error messages are close paraphrases of the Python messages.
* The inverse-kinematics solver and the arm chains are out-of-scope external
  collaborators (they live in the `ikpy` library and in the `Baby` subclass,
  not in this repository's core): where `bend_arm`/`pick_up` consume their
  results (the solved joint-rotation vector, the chain's link list, and the
  trigonometric world-space transform of the target), those results are taken
  as explicit arguments.
* Debug plotting (`_plot_ik`, `matplotlib`) is a pure side effect and is
  omitted; the debug marker commands guarded by `self._debug` are modelled.
-/

namespace StickyMitten

/-- A 3D point/vector with rational coordinates (a Python float triple). -/
structure Vec3 where
  x : ℚ
  y : ℚ
  z : ℚ
deriving DecidableEq, Repr

/-- Squared Euclidean distance between two points
(`np.linalg.norm(v - w) ** 2`). -/
def distSq (v w : Vec3) : ℚ :=
  (v.x - w.x) * (v.x - w.x) + (v.y - w.y) * (v.y - w.y) + (v.z - w.z) * (v.z - w.z)

/-- The real Euclidean distance `np.linalg.norm(v - w)`. -/
noncomputable def euclidDist (v w : Vec3) : ℝ :=
  Real.sqrt ((distSq v w : ℚ) : ℝ)

/-- The real horizontal-plane norm of a point:
`np.linalg.norm([v[0], v[2]])`. -/
noncomputable def horizontalNorm (v : Vec3) : ℝ :=
  Real.sqrt ((v.x * v.x + v.z * v.z : ℚ) : ℝ)

/-- `Arm(Enum)` from `avatar.py`: the side that an arm is on. -/
inductive Arm where
  | left
  | right
deriving DecidableEq, Repr

/-- `arm.name` for the `Arm` enum. -/
def Arm.armName : Arm → String
  | Arm.left => "left"
  | Arm.right => "right"

/-- The left shoulder anchor `[-0.225, 0.565, 0.075]` from
`Avatar.can_bend_to`. -/
def leftShoulder : Vec3 := ⟨-9/40, 113/200, 3/40⟩

/-- The right shoulder anchor `[0.225, 0.565, 0.075]` from
`Avatar.can_bend_to`. -/
def rightShoulder : Vec3 := ⟨9/40, 113/200, 3/40⟩

/-- The shoulder anchor used by `Avatar.can_bend_to` for each arm. -/
def shoulderOf (arm : Arm) : Vec3 :=
  match arm with
  | Arm.left => leftShoulder
  | Arm.right => rightShoulder

/-- `Avatar.can_bend_to(target, arm)`.  The code computes
`d = np.linalg.norm([target[0], target[2]])` and rejects when `d < 0.25`;
then `d = np.linalg.norm(target - shoulder)` and rejects when `d > 0.52`;
then rejects when `target[2] < 0`; otherwise accepts.  The embedding compares
squared norms against the squared thresholds (`0.25^2 = 1/16`,
`0.52^2 = 169/625`), which is equivalent for non-negative distances.
The method reads `self._debug` only to print; it writes no state, so it is a
plain function of its arguments here. -/
def can_bend_to (target : Vec3) (arm : Arm) : Bool :=
  if target.x * target.x + target.z * target.z < (1/16 : ℚ) then
    false
  else if distSq target (shoulderOf arm) > (169/625 : ℚ) then
    false
  else if target.z < 0 then
    false
  else
    true

/-! ## Static skeleton data (`BodyPartStatic`, `Joint`, `JOINTS`) -/

/-- `BodyPartStatic`: static data for a body part of the avatar. -/
structure BodyPartStatic where
  o_id : Int
  color : ℚ × ℚ × ℚ
  name : String
deriving DecidableEq, Repr

/-- `Joint`: a joint name (already combined as `part_arm`), an axis, and the
arm it belongs to. -/
structure Joint where
  joint : String
  axis : String
  arm : String
deriving DecidableEq, Repr

/-- `Joint(part, arm, axis)`: the constructor combines the part and the arm
into the joint name `f"{part}_{arm}"`. -/
def mkJoint (part arm axis : String) : Joint :=
  ⟨part ++ "_" ++ arm, axis, arm⟩

/-- `Avatar.JOINTS`: the 12 joints, left arm first (shoulder pitch/yaw/roll,
elbow pitch, wrist roll, wrist pitch), then the same six on the right. -/
def JOINTS : List Joint :=
  [mkJoint "shoulder" "left" "pitch",
   mkJoint "shoulder" "left" "yaw",
   mkJoint "shoulder" "left" "roll",
   mkJoint "elbow" "left" "pitch",
   mkJoint "wrist" "left" "roll",
   mkJoint "wrist" "left" "pitch",
   mkJoint "shoulder" "right" "pitch",
   mkJoint "shoulder" "right" "yaw",
   mkJoint "shoulder" "right" "roll",
   mkJoint "elbow" "right" "pitch",
   mkJoint "wrist" "right" "roll",
   mkJoint "wrist" "right" "pitch"]

/-- `Avatar._BEND_FORCE`: additional force applied to bending joints. -/
def BEND_FORCE : ℚ := 80

/-- `Avatar._BEND_DAMPER`: damper delta when bending joints. -/
def BEND_DAMPER : ℚ := -300

/-! ## IK goals, frames, commands, snapshot records -/

/-- `_IKGoal`: the goal of an IK action.  `previous_distance` is the
attribute the pure-seek branch of `on_frame` writes
(`self._ik_goals[arm].previous_distance = d`); it is never read.  The code
stores the Euclidean distance `d` there; the embedding stores its square. -/
structure IKGoal where
  target : Option Vec3
  pick_up_id : Option Int
  previous_distance : Option ℚ
deriving DecidableEq, Repr

/-- The dynamic per-frame data read from an `AvatarStickyMitten` record:
position, forward vector, the two mitten-center positions, the two per-arm
joint-angle vectors and the two held-object lists. -/
structure DynFrame where
  position : Vec3
  forward : Vec3
  mittenLeft : Vec3
  mittenRight : Vec3
  anglesLeft : List ℚ
  anglesRight : List ℚ
  heldLeft : List Int
  heldRight : List Int
deriving DecidableEq, Repr

/-- The mitten-center position of the given arm in a frame
(`frame.get_mitten_center_left_position()` / `..._right_...`). -/
def mittenOf (frame : DynFrame) (arm : Arm) : Vec3 :=
  match arm with
  | Arm.left => frame.mittenLeft
  | Arm.right => frame.mittenRight

/-- The joint-angle vector of the given arm in a frame
(`frame.get_angles_left()` / `frame.get_angles_right()`). -/
def anglesOf (frame : DynFrame) (arm : Arm) : List ℚ :=
  match arm with
  | Arm.left => frame.anglesLeft
  | Arm.right => frame.anglesRight

/-- The commands the core emits (each is a `{"$type": ...}` dict in the
code); only the command types the modelled operations emit are listed. -/
inductive Command where
  | bendArmJointTo (angle : ℚ) (joint : String) (axis : String) (avatarId : String)
  | adjustJointForceBy (delta : ℚ) (joint : String) (axis : String) (avatarId : String)
  | adjustJointDamperBy (delta : ℚ) (joint : String) (axis : String) (avatarId : String)
  | pickUpProximity (distance : ℚ) (radius : ℚ) (grip : ℚ) (isLeft : Bool)
      (avatarId : String) (objectIds : List Int)
  | pickUpCmd (grip : ℚ) (isLeft : Bool) (objectIds : List Int) (avatarId : String)
  | removePositionMarkers
  | addPositionMarker (position : Vec3)
deriving DecidableEq, Repr

/-- One record of a snapshot (`resp`, a list of byte arrays).  The
constructor tag models `OutputData.get_data_type_id` ("smsc", "avsm",
"coll", "enco"); `other` stands for every other record type. -/
inductive Record where
  | smsc (avatarId : String) (bodyParts : List (Int × (ℚ × ℚ × ℚ) × String))
  | avsm (avatarId : String) (frame : DynFrame)
  | coll (colliderId : Int) (collideeId : Int)
  | enco (objectId : Int)
  | other (tag : String)
deriving DecidableEq, Repr

/-- The avatar's mutable state: id, debug flag, the static body-part
registry, the two IK-goal slots, the current frame, and the per-frame
collision data.  The arm chains (`self._arms`) are external solver data and
are not part of the state. -/
structure AvatarState where
  id : String
  debug : Bool
  body_parts_static : List BodyPartStatic
  goalLeft : Option IKGoal
  goalRight : Option IKGoal
  frame : DynFrame
  collisions : List (Int × List Int)
  env_collisions : List Int
deriving DecidableEq, Repr

/-- The IK-goal slot of the given arm (`self._ik_goals[arm]`). -/
def goalOf (st : AvatarState) (arm : Arm) : Option IKGoal :=
  match arm with
  | Arm.left => st.goalLeft
  | Arm.right => st.goalRight

/-- Replace the IK-goal slot of the given arm. -/
def setGoal (st : AvatarState) (arm : Arm) (g : Option IKGoal) : AvatarState :=
  match arm with
  | Arm.left => { st with goalLeft := g }
  | Arm.right => { st with goalRight := g }

/-! ## Snapshot scans -/

/-- The scan of `Avatar.__init__`: `for i in range(len(resp) - 1)`, parse
records whose type id is `"smsc"`, and `break` on the first one whose id
equals the avatar id.  This helper takes the already-truncated list. -/
def findSmsc (rs : List Record) (avatar_id : String) :
    Option (List (Int × (ℚ × ℚ × ℚ) × String)) :=
  match rs with
  | [] => none
  | Record.smsc aid parts :: rest =>
      if aid = avatar_id then some parts else findSmsc rest avatar_id
  | _ :: rest => findSmsc rest avatar_id

/-- The scan of `Avatar._get_frame`: parse records whose type id is
`"avsm"` and return the first one whose avatar id matches.  This helper
takes the already-truncated list. -/
def findAvsm (rs : List Record) (avatar_id : String) : Option DynFrame :=
  match rs with
  | [] => none
  | Record.avsm aid f :: rest =>
      if aid = avatar_id then some f else findAvsm rest avatar_id
  | _ :: rest => findAvsm rest avatar_id

/-- `Avatar._get_frame(resp)`: scans `range(len(resp) - 1)` — i.e. every
index but the last — for an `"avsm"` record with this avatar's id, and
raises `Exception(f"No avatar data found for {self.id}")` when none is
found. -/
def get_frame (resp : List Record) (avatar_id : String) : Except String DynFrame :=
  match findAvsm (resp.take (resp.length - 1)) avatar_id with
  | some f => Except.ok f
  | none => Except.error ("No avatar data found for " ++ avatar_id)

/-- `Avatar.__init__(resp, avatar_id, debug)`: finds the segmentation-colors
record (asserting that one exists), caches the body parts, fetches the
initial frame via `_get_frame` (which may itself raise), and initializes
empty goals and collision data. -/
def avatar_init (resp : List Record) (avatar_id : String) (debug : Bool) :
    Except String AvatarState :=
  match findSmsc (resp.take (resp.length - 1)) avatar_id with
  | none => Except.error ("No avatar segmentation colors found for " ++ avatar_id)
  | some parts =>
    match get_frame resp avatar_id with
    | Except.error e => Except.error e
    | Except.ok f =>
        Except.ok
          { id := avatar_id
            debug := debug
            body_parts_static :=
              parts.map (fun p => { o_id := p.1, color := p.2.1, name := p.2.2 })
            goalLeft := none
            goalRight := none
            frame := f
            collisions := []
            env_collisions := [] }

/-! ## Collision aggregation -/

/-- Appending to `self.collisions[k]`, creating the key first when absent
(`if k not in self.collisions: self.collisions[k] = []` followed by
`append`); new keys go to the end, as in a Python dict. -/
def addCollision (m : List (Int × List Int)) (k v : Int) : List (Int × List Int) :=
  match m with
  | [] => [(k, [v])]
  | (k', vs) :: rest =>
      if k' = k then (k', vs ++ [v]) :: rest else (k', vs) :: addCollision rest k v

/-- The collision-aggregation loop of `on_frame`: classify each `"coll"`
record whose collider xor collidee is a registered body part, and each
`"enco"` record naming a registered body part.  Takes the already-truncated
record list and the registered body-part ids. -/
def aggregateCollisions (rs : List Record) (bodyIds : List Int) :
    List (Int × List Int) × List Int :=
  rs.foldl
    (fun acc r =>
      match r with
      | Record.coll collider collidee =>
          if collider ∈ bodyIds ∧ collidee ∉ bodyIds then
            (addCollision acc.1 collider collidee, acc.2)
          else if collidee ∈ bodyIds ∧ collider ∉ bodyIds then
            (addCollision acc.1 collidee collider, acc.2)
          else acc
      | Record.enco oid =>
          if oid ∈ bodyIds then (acc.1, acc.2 ++ [oid]) else acc
      | _ => acc)
    ([], [])

/-! ## Stop sequence, goal evaluation, stall check, `on_frame` -/

/-- `np.abs` on a rational, in an if-form the kernel evaluates directly. -/
def ratAbs (q : ℚ) : ℚ :=
  if q < 0 then -q else q

/-- The angle fold of `_stop_arms`: `if theta > 90: theta = 180 - theta`. -/
def foldAngle (a : ℚ) : ℚ :=
  if a > 90 then 180 - a else a

/-- `Avatar._stop_arms(arm)`: for each joint of the arm (`JOINTS[:6]` /
`JOINTS[6:]`, zipped with the arm's angles from the *current* stored frame
`self.frame`), emit a hold command at the folded current angle, a force
delta of `-_BEND_FORCE` and a damper delta of `-_BEND_DAMPER`. -/
def stop_arms (st : AvatarState) (arm : Arm) : List Command :=
  let joints := match arm with
    | Arm.left => JOINTS.take 6
    | Arm.right => JOINTS.drop 6
  let angles := anglesOf st.frame arm
  (joints.zip angles).flatMap
    (fun ja =>
      [Command.bendArmJointTo (foldAngle ja.2) ja.1.joint ja.1.axis st.id,
       Command.adjustJointForceBy (-BEND_FORCE) ja.1.joint ja.1.axis st.id,
       Command.adjustJointDamperBy (-BEND_DAMPER) ja.1.joint ja.1.axis st.id])

/-- The first per-arm loop of `on_frame` (goal convergence/acquisition):
given the freshly parsed frame, decide the arm's surviving goal and the
commands it contributes.  `d < 0.1` on the Euclidean distance is embedded
as `distSq < 1/100`. -/
def armGoalStep (st : AvatarState) (frame : DynFrame) (arm : Arm) :
    Option IKGoal × List Command :=
  match goalOf st arm with
  | none => (none, [])
  | some goal =>
    match goal.target with
    | none => (some goal, [])
    | some target =>
      let mitten := mittenOf frame arm
      if distSq mitten target < 1/100 then
        (none, stop_arms st arm)
      else
        match goal.pick_up_id with
        | some oid =>
          if oid ∈ frame.heldLeft ∨ oid ∈ frame.heldRight then
            (none, stop_arms st arm)
          else
            (some goal,
             [Command.pickUpProximity (3/20) (1/10) 1000 (decide (arm = Arm.left))
                st.id [oid],
              Command.pickUpCmd 1000 (decide (arm = Arm.left)) [oid] st.id])
        | none =>
          (some { goal with previous_distance := some (distSq mitten target) }, [])

/-- The second per-arm loop of `on_frame` (stall check): compare the arm's
joint angles between the previously stored frame `st.frame` and the new
frame; the arm is still `moving` when some zipped pair differs by more than
`0.03`; if not moving, the slot is cleared. -/
def stallCheck (st : AvatarState) (frame : DynFrame) (arm : Arm)
    (g : Option IKGoal) : Option IKGoal :=
  match g with
  | none => none
  | some goal =>
    let angles_0 := anglesOf st.frame arm
    let angles_1 := anglesOf frame arm
    let moving := (angles_0.zip angles_1).any (fun p => decide (3/100 < ratAbs (p.1 - p.2)))
    if moving then some goal else none

/-- `Avatar.on_frame(resp)`: parse the new frame (which may raise), rebuild
the collision data from every record but the last, run the
convergence/acquisition step on both arms (left first, as in the dict
iteration order), then the stall check, and finally replace the stored
frame.  Returns the new state and the accumulated commands. -/
def on_frame (st : AvatarState) (resp : List Record) :
    Except String (AvatarState × List Command) :=
  match get_frame resp st.id with
  | Except.error e => Except.error e
  | Except.ok frame =>
    let scanned := resp.take (resp.length - 1)
    let colls := aggregateCollisions scanned (st.body_parts_static.map BodyPartStatic.o_id)
    let stepLeft := armGoalStep st frame Arm.left
    let stepRight := armGoalStep st frame Arm.right
    let goalLeft := stallCheck st frame Arm.left stepLeft.1
    let goalRight := stallCheck st frame Arm.right stepRight.1
    Except.ok
      ({ st with
          frame := frame
          collisions := colls.1
          env_collisions := colls.2
          goalLeft := goalLeft
          goalRight := goalRight },
       stepLeft.2 ++ stepRight.2)

/-! ## `bend_arm` and `pick_up`

The IK solver (`self._arms[arm].inverse_kinematics`) and the chain link
list are external (`ikpy` / the `Baby` subclass); the trigonometric
world-space transform
`rotate_point_around(ik_target, angle) + self.frame.get_position()` is the
real-valued geometry of `util.py`.  The embedding therefore takes the
solver's joint rotations (already converted to degrees, as the emitted
command applies `np.rad2deg`), the chain's links as `(part, axis)` pairs
(the code splits the link name `"part_axis"` on `"_"`), and the transformed
world-space target, as arguments. -/

/-- `Avatar.bend_arm(arm, target, target_orientation)`: store a fresh
Seeking goal for the arm (pick-up id `None`), and for every link/rotation
pair except the first and last, emit a bend command plus the
`_BEND_FORCE`/`_BEND_DAMPER` adjustments.  When `self._debug` is set, the
two position-marker commands are emitted first. -/
def bend_arm (st : AvatarState) (arm : Arm) (world_target : Vec3)
    (rotations_deg : List ℚ) (links : List (String × String)) :
    AvatarState × List Command :=
  let st' := setGoal st arm (some { target := some world_target,
                                    pick_up_id := none,
                                    previous_distance := none })
  let debugCmds :=
    if st.debug then
      [Command.removePositionMarkers, Command.addPositionMarker world_target]
    else []
  let a := arm.armName
  let cmds :=
    (((links.drop 1).dropLast).zip ((rotations_deg.drop 1).dropLast)).flatMap
      (fun cr =>
        let joint := cr.1.1 ++ "_" ++ a
        let axis := cr.1.2
        [Command.bendArmJointTo cr.2 joint axis st.id,
         Command.adjustJointForceBy BEND_FORCE joint axis st.id,
         Command.adjustJointDamperBy BEND_DAMPER joint axis st.id])
  (st', debugCmds ++ cmds)

/-- One object of a `Bounds` record: its id, center, and the six named
boundary points. -/
structure BoundsObject where
  id : Int
  center : Vec3
  top : Vec3
  bottom : Vec3
  left : Vec3
  right : Vec3
  front : Vec3
  back : Vec3
deriving DecidableEq, Repr

/-- The center-lookup loop of `Avatar.pick_up`: scan the bounds record
(over its full range `range(bounds.get_num())`) for the object id. -/
def findCenter (bounds : List BoundsObject) (object_id : Int) : Option Vec3 :=
  match bounds with
  | [] => none
  | b :: rest => if b.id = object_id then some b.center else findCenter rest object_id

/-- Set `self._ik_goals[arm].pick_up_id = object_id` (the in-place mutation
`pick_up` performs on the goal `bend_arm` just installed). -/
def setPickUpId (st : AvatarState) (arm : Arm) (object_id : Int) : AvatarState :=
  match goalOf st arm with
  | none => st
  | some g => setGoal st arm (some { g with pick_up_id := some object_id })

/-- `Avatar.pick_up(object_id, bounds)`: find the object's center (asserting
it exists), pick the arm whose mitten is nearer to it (ties favor left,
`d_left <= d_right`; the comparison of norms is embedded as the equivalent
comparison of squared norms), delegate to `bend_arm`, then mark the new
goal's pick-up id.  The avatar-local target fed to the solver and the
mitten-to-center target orientation are real-valued geometry consumed only
by the external solver; as in `bend_arm`, the solver results and the stored
world-space target arrive as arguments. -/
def pick_up (st : AvatarState) (object_id : Int) (bounds : List BoundsObject)
    (world_target : Vec3) (rotations_deg : List ℚ)
    (links : List (String × String)) :
    Except String (AvatarState × List Command × Arm) :=
  match findCenter bounds object_id with
  | none => Except.error ("No center found for object " ++ toString object_id)
  | some center =>
    let d_left := distSq st.frame.mittenLeft center
    let d_right := distSq st.frame.mittenRight center
    let arm := if d_left ≤ d_right then Arm.left else Arm.right
    let bent := bend_arm st arm world_target rotations_deg links
    Except.ok (setPickUpId bent.1 arm object_id, bent.2, arm)

/-! ## Bounds utilities (`util.py`) -/

/-- `get_bounds_dict(bounds, index)`: the six named boundary points, in the
dict's (insertion-ordered) enumeration order. -/
def get_bounds_dict (b : BoundsObject) : List (String × Vec3) :=
  [("top", b.top),
   ("bottom", b.bottom),
   ("left", b.left),
   ("right", b.right),
   ("front", b.front),
   ("back", b.back)]

/-- One step of the minimum-distance loop of `get_closest_point_in_bounds`:
`if d < min_distance: min_distance = d; min_destination = p`.  The running
minimum is kept squared (the comparison of norms is equivalent to the
comparison of squared norms). -/
def minStep (origin : Vec3) (acc : String × ℚ) (p : String × Vec3) : String × ℚ :=
  if distSq origin p.2 < acc.2 then (p.1, distSq origin p.2) else acc

/-- `get_closest_point_in_bounds(origin, bounds, index)`: fold the
minimum-distance loop with `min_destination = ""` and `min_distance = 10000`
(kept squared: `10000^2 = 100000000`), then look the winning name up in the
bounds dict.  When no point beats the initial 10000, the name stays `""`
and the Python dict access raises `KeyError`; the embedding returns
`none` in that case. -/
def get_closest_point_in_bounds (origin : Vec3) (b : BoundsObject) : Option Vec3 :=
  let object_bounds := get_bounds_dict b
  let acc := object_bounds.foldl (minStep origin) ("", 100000000)
  object_bounds.lookup acc.1

/-! ## Real-valued geometry utilities (`util.py`) -/

/-- A 3D point/vector with real coordinates, for the trigonometric
utilities. -/
structure Vec3R where
  x : ℝ
  y : ℝ
  z : ℝ

/-- `np.arctan2(y, x)`: the idealized real-valued two-argument
arctangent. -/
noncomputable def atan2 (y x : ℝ) : ℝ :=
  if 0 < x then Real.arctan (y / x)
  else if x < 0 then
    (if 0 ≤ y then Real.arctan (y / x) + Real.pi else Real.arctan (y / x) - Real.pi)
  else
    (if 0 < y then Real.pi / 2 else if y < 0 then -(Real.pi / 2) else 0)

/-- Python float `%`: `pymod x m = x - m * ⌊x / m⌋`, which for `m > 0`
lies in `[0, m)`. -/
noncomputable def pymod (x m : ℝ) : ℝ :=
  x - m * (⌊x / m⌋ : ℤ)

/-- `np.rad2deg`. -/
noncomputable def rad2deg (r : ℝ) : ℝ :=
  r * (180 / Real.pi)

/-- `np.deg2rad`. -/
noncomputable def deg2rad (a : ℝ) : ℝ :=
  a * Real.pi / 180

/-- `get_angle_between(v1, v2)` from `util.py`:
`np.rad2deg((np.arctan2(v1[2], v1[0]) - np.arctan2(v2[2], v2[0])) % (2 * np.pi))`. -/
noncomputable def get_angle_between (v1 v2 : Vec3R) : ℝ :=
  rad2deg (pymod (atan2 v1.z v1.x - atan2 v2.z v2.x) (2 * Real.pi))

/-- `rotate_point_around(point, angle, origin)` from `util.py`; the Python
default `origin=None` is treated as the origin `(0, 0, 0)`, exactly as the
code does. -/
noncomputable def rotate_point_around (point : Vec3R) (angle : ℝ)
    (origin : Vec3R := ⟨0, 0, 0⟩) : Vec3R :=
  let radians := deg2rad angle
  let adjusted_x := point.x - origin.x
  let adjusted_y := point.z - origin.z
  let cos_rad := Real.cos radians
  let sin_rad := Real.sin radians
  let qx := origin.x + cos_rad * adjusted_x + sin_rad * adjusted_y
  let qy := origin.z + -sin_rad * adjusted_x + cos_rad * adjusted_y
  ⟨qx, point.y, qy⟩

/-! ## Sample data for concrete evaluations -/

deriving instance DecidableEq for Except


/-- A concrete resting frame: every angle zero, both mittens at the body
origin, nothing held. -/
def sampleFrame : DynFrame :=
  { position := ⟨0, 0, 0⟩
    forward := ⟨0, 0, 1⟩
    mittenLeft := ⟨0, 0, 0⟩
    mittenRight := ⟨0, 0, 0⟩
    anglesLeft := [0, 0, 0, 0, 0, 0]
    anglesRight := [0, 0, 0, 0, 0, 0]
    heldLeft := []
    heldRight := []
    }

/-- A concrete idle avatar state built on `sampleFrame`. -/
def sampleState : AvatarState :=
  { id := "a"
    debug := false
    body_parts_static := []
    goalLeft := none
    goalRight := none
    frame := sampleFrame
    collisions := []
    env_collisions := []
    }

/-- A dummy goal (`_IKGoal(target=None)`). -/
def dummyGoal : IKGoal := ⟨none, none, none⟩

/-- A Seeking goal aimed at the world point `(0, 0, 2)`. -/
def seekGoal : IKGoal := ⟨some ⟨0, 0, 2⟩, none, none⟩

/-- A state whose left arm is Seeking `(0, 0, 2)`. -/
def seekState : AvatarState := { sampleState with goalLeft := some seekGoal }

/-- A state whose left arm holds a dummy (Settling) goal. -/
def settlingState : AvatarState := { sampleState with goalLeft := some dummyGoal }

/-- A state whose left arm is Seeking the point the left mitten already
occupies (`(0, 0, 0)`), i.e. a converged goal. -/
def convergedState : AvatarState :=
  { sampleState with goalLeft := some ⟨some ⟨0, 0, 0⟩, none, none⟩ }

/-- A new frame in which the first left joint has moved by a full unit
(so the left arm does not read as stalled). -/
def movedFrame : DynFrame := { sampleFrame with anglesLeft := [1, 0, 0, 0, 0, 0] }

/-- A bounds object whose six named points all sit at the origin. -/
def zeroBounds : BoundsObject :=
  { id := 0
    center := ⟨0, 0, 0⟩
    top := ⟨0, 0, 0⟩
    bottom := ⟨0, 0, 0⟩
    left := ⟨0, 0, 0⟩
    right := ⟨0, 0, 0⟩
    front := ⟨0, 0, 0⟩
    back := ⟨0, 0, 0⟩
    }

/-! # Supporting lemmas -/

theorem Vec3R.ext_iff' (v w : Vec3R) :
    v = w ↔ v.x = w.x ∧ v.y = w.y ∧ v.z = w.z := by
  cases v
  cases w
  simp

theorem pymod_nonneg (x m : ℝ) (hm : 0 < m) : 0 ≤ pymod x m := by
  unfold pymod
  have h := mul_le_mul_of_nonneg_left (Int.floor_le (x / m)) hm.le
  rw [mul_div_cancel₀ x (ne_of_gt hm)] at h
  linarith

theorem pymod_lt (x m : ℝ) (hm : 0 < m) : pymod x m < m := by
  unfold pymod
  have h := mul_lt_mul_of_pos_left (Int.lt_floor_add_one (x / m)) hm
  rw [mul_div_cancel₀ x (ne_of_gt hm)] at h
  nlinarith

theorem pymod_zero_left (m : ℝ) : pymod 0 m = 0 := by
  unfold pymod
  rw [zero_div]
  simp

/-- Bridge: `Real.sqrt q < c` iff `q < c^2`, for a positive bound. -/
theorem sqrt_lt_bound (q : ℚ) (c : ℝ) (hc : 0 < c) :
    Real.sqrt (q : ℝ) < c ↔ (q : ℝ) < c ^ 2 :=
  Real.sqrt_lt' hc

/-- Bridge: `c < Real.sqrt q` iff `c^2 < q`, for a non-negative bound. -/
theorem lt_sqrt_bound (q : ℚ) (c : ℝ) (hc : 0 ≤ c) :
    c < Real.sqrt (q : ℝ) ↔ c ^ 2 < (q : ℝ) :=
  Real.lt_sqrt hc

/-- Dropping the final index: the scanned prefix of `rs ++ [r]` is `rs`. -/
theorem take_length_sub_one_append (rs : List Record) (r : Record) :
    (rs ++ [r]).take ((rs ++ [r]).length - 1) = rs := by
  rw [List.length_append]
  simp only [List.length_singleton, Nat.add_sub_cancel]
  exact List.take_left rs [r]

/-- A list containing no `smsc` record for the given id scans to `none`. -/
theorem findSmsc_eq_none (rs : List Record) (aid : String)
    (h : ∀ r ∈ rs, ∀ parts, r ≠ Record.smsc aid parts) :
    findSmsc rs aid = none := by
  induction rs with
  | nil => rfl
  | cons r rest ih =>
    have hrest : ∀ x ∈ rest, ∀ parts, x ≠ Record.smsc aid parts :=
      fun x hx => h x (List.mem_cons_of_mem _ hx)
    cases r with
    | smsc aid' parts =>
      have hr := h _ (List.mem_cons_self _ _) parts
      have hne : ¬(aid' = aid) := by
        intro he
        exact hr (by rw [he])
      simp only [findSmsc, if_neg hne]
      exact ih hrest
    | avsm aid' f =>
      simp only [findSmsc]
      exact ih hrest
    | coll a b =>
      simp only [findSmsc]
      exact ih hrest
    | enco a =>
      simp only [findSmsc]
      exact ih hrest
    | other t =>
      simp only [findSmsc]
      exact ih hrest

/-- A list containing no `avsm` record for the given id scans to `none`. -/
theorem findAvsm_eq_none (rs : List Record) (aid : String)
    (h : ∀ r ∈ rs, ∀ f, r ≠ Record.avsm aid f) :
    findAvsm rs aid = none := by
  induction rs with
  | nil => rfl
  | cons r rest ih =>
    have hrest : ∀ x ∈ rest, ∀ f, x ≠ Record.avsm aid f :=
      fun x hx => h x (List.mem_cons_of_mem _ hx)
    cases r with
    | smsc aid' parts =>
      simp only [findAvsm]
      exact ih hrest
    | avsm aid' f =>
      have hr := h _ (List.mem_cons_self _ _) f
      have hne : ¬(aid' = aid) := by
        intro he
        exact hr (by rw [he])
      simp only [findAvsm, if_neg hne]
      exact ih hrest
    | coll a b =>
      simp only [findAvsm]
      exact ih hrest
    | enco a =>
      simp only [findAvsm]
      exact ih hrest
    | other t =>
      simp only [findAvsm]
      exact ih hrest

/-- `ratAbs` agrees with the absolute value. -/
theorem ratAbs_eq_abs (q : ℚ) : ratAbs q = |q| := by
  unfold ratAbs
  split_ifs with h
  · exact (abs_of_neg h).symm
  · exact (abs_of_nonneg (le_of_not_lt h)).symm

/-- `on_frame` on a snapshot whose frame parses: the explicit new state and
command list. -/
theorem on_frame_ok (st : AvatarState) (resp : List Record) (frame : DynFrame)
    (hf : get_frame resp st.id = Except.ok frame) :
    on_frame st resp =
      Except.ok
        ({ st with
            frame := frame
            collisions :=
              (aggregateCollisions (resp.take (resp.length - 1))
                (st.body_parts_static.map BodyPartStatic.o_id)).1
            env_collisions :=
              (aggregateCollisions (resp.take (resp.length - 1))
                (st.body_parts_static.map BodyPartStatic.o_id)).2
            goalLeft := stallCheck st frame Arm.left (armGoalStep st frame Arm.left).1
            goalRight := stallCheck st frame Arm.right (armGoalStep st frame Arm.right).1 },
         (armGoalStep st frame Arm.left).2 ++ (armGoalStep st frame Arm.right).2) := by
  unfold on_frame
  rw [hf]

/-- `armGoalStep` on an empty slot. -/
theorem armGoalStep_empty (st : AvatarState) (frame : DynFrame) (arm : Arm)
    (hg : goalOf st arm = none) :
    armGoalStep st frame arm = (none, []) := by
  unfold armGoalStep
  rw [hg]

/-- `armGoalStep` on a dummy goal. -/
theorem armGoalStep_dummy (st : AvatarState) (frame : DynFrame) (arm : Arm)
    (goal : IKGoal) (hg : goalOf st arm = some goal) (ht : goal.target = none) :
    armGoalStep st frame arm = (some goal, []) := by
  simp [armGoalStep, hg, ht]

/-- `armGoalStep` on a converged goal: stop and clear. -/
theorem armGoalStep_converged (st : AvatarState) (frame : DynFrame) (arm : Arm)
    (goal : IKGoal) (target : Vec3)
    (hg : goalOf st arm = some goal) (ht : goal.target = some target)
    (hd : distSq (mittenOf frame arm) target < 1/100) :
    armGoalStep st frame arm = (none, stop_arms st arm) := by
  simp only [armGoalStep, hg, ht]
  simp [hd]
  intro h
  rw [show ((100:ℚ)⁻¹) = 1/100 by norm_num] at h
  exact absurd hd (not_lt.mpr h)

/-- `armGoalStep` on a pick-up goal whose object is now held: stop and
clear, with no grasp commands. -/
theorem armGoalStep_held (st : AvatarState) (frame : DynFrame) (arm : Arm)
    (goal : IKGoal) (target : Vec3) (oid : Int)
    (hg : goalOf st arm = some goal) (ht : goal.target = some target)
    (hd : ¬ distSq (mittenOf frame arm) target < 1/100)
    (hpid : goal.pick_up_id = some oid)
    (hheld : oid ∈ frame.heldLeft ∨ oid ∈ frame.heldRight) :
    armGoalStep st frame arm = (none, stop_arms st arm) := by
  simp [armGoalStep, hg, ht, hd, hpid, hheld]

/-- `armGoalStep` on a pick-up goal whose object is not yet held: emit the
grasp-attempt pair and keep the goal. -/
theorem armGoalStep_grasp (st : AvatarState) (frame : DynFrame) (arm : Arm)
    (goal : IKGoal) (target : Vec3) (oid : Int)
    (hg : goalOf st arm = some goal) (ht : goal.target = some target)
    (hd : ¬ distSq (mittenOf frame arm) target < 1/100)
    (hpid : goal.pick_up_id = some oid)
    (hnot : ¬(oid ∈ frame.heldLeft ∨ oid ∈ frame.heldRight)) :
    armGoalStep st frame arm =
      (some goal,
       [Command.pickUpProximity (3/20) (1/10) 1000 (decide (arm = Arm.left))
          st.id [oid],
        Command.pickUpCmd 1000 (decide (arm = Arm.left)) [oid] st.id]) := by
  push_neg at hnot
  simp [armGoalStep, hg, ht, hd, hpid, hnot.1, hnot.2]
  simpa using le_of_not_lt hd

/-- `armGoalStep` on a pure positional seek that has not arrived: keep the
goal, writing its `previous_distance` attribute. -/
theorem armGoalStep_seek (st : AvatarState) (frame : DynFrame) (arm : Arm)
    (goal : IKGoal) (target : Vec3)
    (hg : goalOf st arm = some goal) (ht : goal.target = some target)
    (hd : ¬ distSq (mittenOf frame arm) target < 1/100)
    (hpid : goal.pick_up_id = none) :
    armGoalStep st frame arm =
      (some { goal with
                previous_distance := some (distSq (mittenOf frame arm) target) },
       []) := by
  simp [armGoalStep, hg, ht, hd, hpid]
  simpa using le_of_not_lt hd

/-- `stallCheck` on an occupied slot, as an `if` on the `moving` test. -/
theorem stallCheck_some (st : AvatarState) (frame : DynFrame) (arm : Arm)
    (goal : IKGoal) :
    stallCheck st frame arm (some goal) =
      if ((anglesOf st.frame arm).zip (anglesOf frame arm)).any
          (fun p => decide (3/100 < ratAbs (p.1 - p.2))) = true
      then some goal else none :=
  rfl

/-- The minimum-distance fold leaves the accumulator untouched when no
point strictly beats it. -/
theorem foldl_minStep_no_change (origin : Vec3) :
    ∀ (pts : List (String × Vec3)) (acc : String × ℚ),
      (∀ p ∈ pts, ¬ distSq origin p.2 < acc.2) →
      pts.foldl (minStep origin) acc = acc
  | [], _, _ => rfl
  | x :: xs, acc, h => by
    rw [List.foldl_cons]
    have hx : minStep origin acc x = acc := by
      unfold minStep
      rw [if_neg (h x (List.mem_cons_self _ _))]
    rw [hx]
    exact foldl_minStep_no_change origin xs acc
      (fun p hp => h p (List.mem_cons_of_mem _ hp))

/-- `find?` only depends on the predicate's values on the list. -/
theorem find?_congr_mem {α : Type} (l : List α) (p q : α → Bool)
    (h : ∀ x ∈ l, p x = q x) : l.find? p = l.find? q := by
  induction l with
  | nil => rfl
  | cons a as ih =>
    by_cases hq : q a = true
    · rw [List.find?_cons_of_pos _ ((h a (List.mem_cons_self _ _)).trans hq),
          List.find?_cons_of_pos _ hq]
    · have hp : ¬ p a = true := by
        rw [h a (List.mem_cons_self _ _)]
        exact hq
      rw [List.find?_cons_of_neg _ hp, List.find?_cons_of_neg _ hq]
      exact ih fun x hx => h x (List.mem_cons_of_mem _ hx)

set_option maxHeartbeats 1600000 in
/-- The minimum-distance fold selects the first entry that (strictly beats
the accumulator and) is at minimal distance among all entries. -/
theorem foldl_minStep_first_min (origin : Vec3) (pts : List (String × Vec3)) :
    ∀ (acc : String × ℚ),
      (∃ p ∈ pts, distSq origin p.2 < acc.2) →
      ∃ q, pts.find?
          (fun (p : String × Vec3) => decide (distSq origin p.2 < acc.2) &&
            pts.all (fun r => decide (distSq origin p.2 ≤ distSq origin r.2)))
          = some q ∧
        pts.foldl (minStep origin) acc = (q.1, distSq origin q.2) := by
  induction pts with
  | nil =>
    intro acc h
    simp at h
  | cons x xs ih =>
    intro acc h
    by_cases hxlt : distSq origin x.2 < acc.2
    · by_cases hxall : ∀ r ∈ x :: xs, distSq origin x.2 ≤ distSq origin r.2
      · refine ⟨x, ?_, ?_⟩
        · apply List.find?_cons_of_pos
          rw [Bool.and_eq_true, decide_eq_true_eq, List.all_eq_true]
          exact ⟨hxlt, fun r hr => decide_eq_true (hxall r hr)⟩
        · rw [List.foldl_cons]
          have hstep : minStep origin acc x = (x.1, distSq origin x.2) := by
            unfold minStep
            rw [if_pos hxlt]
          rw [hstep]
          exact foldl_minStep_no_change origin xs (x.1, distSq origin x.2)
            (fun p hp => not_lt.mpr (hxall p (List.mem_cons_of_mem _ hp)))
      · push_neg at hxall
        obtain ⟨r0, hr0mem, hr0⟩ := hxall
        have hr0xs : r0 ∈ xs := by
          rcases List.mem_cons.mp hr0mem with he | hxs
          · exfalso
            rw [he] at hr0
            exact lt_irrefl _ hr0
          · exact hxs
        have hstep : minStep origin acc x = (x.1, distSq origin x.2) := by
          unfold minStep
          rw [if_pos hxlt]
        obtain ⟨q, hfind, hfold⟩ := ih (x.1, distSq origin x.2) ⟨r0, hr0xs, hr0⟩
        refine ⟨q, ?_, ?_⟩
        · have hxfail : ¬ (decide (distSq origin x.2 < acc.2) &&
              (x :: xs).all
                (fun r => decide (distSq origin x.2 ≤ distSq origin r.2))) = true := by
            rw [Bool.and_eq_true, List.all_eq_true]
            rintro ⟨-, hall⟩
            have := of_decide_eq_true (hall r0 hr0mem)
            exact absurd hr0 (not_lt.mpr this)
          have hdrop := @List.find?_cons_of_neg _
                (fun (p : String × Vec3) => decide (distSq origin p.2 < acc.2) &&
                  (x :: xs).all
                    (fun r => decide (distSq origin p.2 ≤ distSq origin r.2)))
                x xs hxfail
          have hcongr : xs.find?
              (fun (p : String × Vec3) => decide (distSq origin p.2 < acc.2) &&
                (x :: xs).all
                  (fun r => decide (distSq origin p.2 ≤ distSq origin r.2))) =
              xs.find?
              (fun (p : String × Vec3) => decide (distSq origin p.2 < distSq origin x.2) &&
                xs.all
                  (fun r => decide (distSq origin p.2 ≤ distSq origin r.2))) := by
            apply find?_congr_mem
            intro p hp
            by_cases hall : ∀ r ∈ xs, distSq origin p.2 ≤ distSq origin r.2
            · have h2 : distSq origin p.2 < distSq origin x.2 :=
                lt_of_le_of_lt (hall r0 hr0xs) hr0
              have h3 : distSq origin p.2 < acc.2 := lt_trans h2 hxlt
              have hcons : ∀ r ∈ x :: xs, distSq origin p.2 ≤ distSq origin r.2 := by
                intro r hr
                rcases List.mem_cons.mp hr with he | hxs
                · rw [he]
                  exact le_of_lt h2
                · exact hall r hxs
              have hL : (decide (distSq origin p.2 < acc.2) &&
                  (x :: xs).all
                    (fun r => decide (distSq origin p.2 ≤ distSq origin r.2))) = true := by
                rw [Bool.and_eq_true, List.all_eq_true]
                exact ⟨decide_eq_true h3, fun r hr => decide_eq_true (hcons r hr)⟩
              have hR : (decide (distSq origin p.2 < distSq origin x.2) &&
                  xs.all
                    (fun r => decide (distSq origin p.2 ≤ distSq origin r.2))) = true := by
                rw [Bool.and_eq_true, List.all_eq_true]
                exact ⟨decide_eq_true h2, fun r hr => decide_eq_true (hall r hr)⟩
              rw [hL, hR]
            · push_neg at hall
              obtain ⟨r1, hr1mem, hr1⟩ := hall
              have hfull : ((x :: xs).all
                  (fun r => decide (distSq origin p.2 ≤ distSq origin r.2))) = false := by
                rw [List.all_eq_false]
                exact ⟨r1, List.mem_cons_of_mem _ hr1mem,
                  by simpa using not_le.mpr hr1⟩
              have hxs' : (xs.all
                  (fun r => decide (distSq origin p.2 ≤ distSq origin r.2))) = false := by
                rw [List.all_eq_false]
                exact ⟨r1, hr1mem, by simpa using not_le.mpr hr1⟩
              rw [hfull, hxs', Bool.and_false, Bool.and_false]
          exact hdrop.trans (hcongr.trans hfind)
        · rw [List.foldl_cons, hstep]
          exact hfold
    · have hstep : minStep origin acc x = acc := by
        unfold minStep
        rw [if_neg hxlt]
      obtain ⟨p0, hp0mem, hp0⟩ := h
      have hp0xs : p0 ∈ xs := by
        rcases List.mem_cons.mp hp0mem with he | hxs
        · exfalso
          rw [he] at hp0
          exact hxlt hp0
        · exact hxs
      obtain ⟨q, hfind, hfold⟩ := ih acc ⟨p0, hp0xs, hp0⟩
      refine ⟨q, ?_, ?_⟩
      · have hxfail : ¬ (decide (distSq origin x.2 < acc.2) &&
            (x :: xs).all
              (fun r => decide (distSq origin x.2 ≤ distSq origin r.2))) = true := by
          rw [Bool.and_eq_true]
          rintro ⟨hlt, -⟩
          exact hxlt (of_decide_eq_true hlt)
        have hdrop := @List.find?_cons_of_neg _
              (fun (p : String × Vec3) => decide (distSq origin p.2 < acc.2) &&
                (x :: xs).all
                  (fun r => decide (distSq origin p.2 ≤ distSq origin r.2)))
              x xs hxfail
        have hcongr : xs.find?
            (fun (p : String × Vec3) => decide (distSq origin p.2 < acc.2) &&
              (x :: xs).all
                (fun r => decide (distSq origin p.2 ≤ distSq origin r.2))) =
            xs.find?
            (fun (p : String × Vec3) => decide (distSq origin p.2 < acc.2) &&
              xs.all
                (fun r => decide (distSq origin p.2 ≤ distSq origin r.2))) := by
          apply find?_congr_mem
          intro p hp
          by_cases hplt : distSq origin p.2 < acc.2
          · have hpx : distSq origin p.2 ≤ distSq origin x.2 :=
              le_trans (le_of_lt hplt) (not_lt.mp hxlt)
            rw [List.all_cons]
            rw [decide_eq_true hpx]
            rw [Bool.true_and]
          · rw [decide_eq_false hplt, Bool.false_and, Bool.false_and]
        exact hdrop.trans (hcongr.trans hfind)
      · rw [List.foldl_cons, hstep]
        exact hfold

/-- A bounds record containing no object with the given id yields no
center. -/
theorem findCenter_eq_none (bounds : List BoundsObject) (oid : Int)
    (h : ∀ b ∈ bounds, b.id ≠ oid) :
    findCenter bounds oid = none := by
  induction bounds with
  | nil => rfl
  | cons b rest ih =>
    simp only [findCenter, if_neg (h b (List.mem_cons_self _ _))]
    exact ih fun x hx => h x (List.mem_cons_of_mem _ hx)

/-! # Claim theorems -/

/-- C4: for every target point and every arm, `can_bend_to` returns false
exactly when the horizontal-plane distance from the avatar origin to the
target is below 0.25, or the Euclidean distance from the target to the
chosen arm's shoulder anchor ((-0.225, 0.565, 0.075) left,
(0.225, 0.565, 0.075) right) exceeds 0.52, or the target's forward-axis (z)
coordinate is negative; it returns true otherwise.  (The function is a plain
function of its arguments in this embedding, matching the code, which
mutates nothing.) -/
theorem can_bend_to_false_iff (target : Vec3) (arm : Arm) :
    can_bend_to target arm = false ↔
      (horizontalNorm target < 1/4 ∨
       euclidDist target (shoulderOf arm) > 13/25 ∨
       target.z < 0) := by
  have hh : horizontalNorm target < 1/4 ↔
      target.x * target.x + target.z * target.z < (1/16 : ℚ) := by
    calc horizontalNorm target < 1/4
        ↔ ((target.x * target.x + target.z * target.z : ℚ) : ℝ) < (1/4) ^ 2 :=
          sqrt_lt_bound _ _ (by norm_num)
      _ ↔ ((target.x * target.x + target.z * target.z : ℚ) : ℝ) <
            (((1:ℚ)/16 : ℚ) : ℝ) := by
          norm_num
      _ ↔ target.x * target.x + target.z * target.z < (1/16 : ℚ) := Rat.cast_lt
  have hd : euclidDist target (shoulderOf arm) > 13/25 ↔
      distSq target (shoulderOf arm) > (169/625 : ℚ) := by
    calc euclidDist target (shoulderOf arm) > 13/25
        ↔ ((13:ℝ)/25) ^ 2 < ((distSq target (shoulderOf arm) : ℚ) : ℝ) :=
          lt_sqrt_bound _ _ (by norm_num)
      _ ↔ (((169:ℚ)/625 : ℚ) : ℝ) < ((distSq target (shoulderOf arm) : ℚ) : ℝ) := by
          norm_num
      _ ↔ distSq target (shoulderOf arm) > (169/625 : ℚ) := Rat.cast_lt
  rw [can_bend_to]
  split_ifs with h1 h2 h3
  · exact iff_of_true rfl (Or.inl (hh.mpr h1))
  · exact iff_of_true rfl (Or.inr (Or.inl (hd.mpr h2)))
  · exact iff_of_true rfl (Or.inr (Or.inr h3))
  · refine iff_of_false (by decide) ?_
    push_neg
    refine ⟨le_of_not_lt fun hc => h1 (hh.mp hc),
            le_of_not_lt fun hc => h2 (hd.mp hc), le_of_not_lt h3⟩

/-- C7: for every pair of directional vectors, `get_angle_between` lies in
the half-open interval `[0, 360)`, and for every vector `v`,
`get_angle_between v v = 0`. -/
theorem get_angle_between_range (v1 v2 v : Vec3R) :
    0 ≤ get_angle_between v1 v2 ∧ get_angle_between v1 v2 < 360 ∧
      get_angle_between v v = 0 := by
  have hpi := Real.pi_pos
  have h2pi : (0:ℝ) < 2 * Real.pi := by linarith
  refine ⟨?_, ?_, ?_⟩
  · unfold get_angle_between rad2deg
    exact mul_nonneg (pymod_nonneg _ _ h2pi) (by positivity)
  · unfold get_angle_between rad2deg
    have hlt := pymod_lt (atan2 v1.z v1.x - atan2 v2.z v2.x) _ h2pi
    have hmul := mul_lt_mul_of_pos_right hlt
      (show (0:ℝ) < 180 / Real.pi by positivity)
    have h360 : (2 * Real.pi) * (180 / Real.pi) = 360 := by
      field_simp
      ring
    linarith
  · unfold get_angle_between
    rw [sub_self, pymod_zero_left]
    unfold rad2deg
    ring

/-- C8: rotating a point by `θ` about a pivot with `rotate_point_around` and
then rotating the result by `-θ` about the same pivot yields the point
again (exactly, in the idealized real arithmetic of the embedding), and
every application of `rotate_point_around` leaves the vertical (second)
coordinate unchanged. -/
theorem rotate_point_around_round_trip (p : Vec3R) (θ : ℝ) (o : Vec3R) :
    rotate_point_around (rotate_point_around p θ o) (-θ) o = p ∧
      (rotate_point_around p θ o).y = p.y := by
  have hdr : deg2rad (-θ) = -(deg2rad θ) := by
    unfold deg2rad
    ring
  have hkey := Real.sin_sq_add_cos_sq (deg2rad θ)
  constructor
  · rw [Vec3R.ext_iff']
    refine ⟨?_, ?_, ?_⟩
    · simp only [rotate_point_around, hdr, Real.cos_neg, Real.sin_neg]
      linear_combination (p.x - o.x) * hkey
    · rfl
    · simp only [rotate_point_around, hdr, Real.cos_neg, Real.sin_neg]
      linear_combination (p.z - o.z) * hkey
  · rfl

/-- C9: every scan of a snapshot list (the construction's
segmentation-colors search, `_get_frame`'s dynamic-state search, and
`on_frame`'s collision aggregation) iterates only over indices
`0 .. len(resp) - 2`, so a record occupying the last position of the
snapshot is never examined — replacing the last record changes nothing —
and a snapshot whose only dynamic-state record for the avatar is its final
element causes the frame request to raise as if the record were absent. -/
theorem last_record_never_examined (rs : List Record) (r r' : Record)
    (aid : String) (debug : Bool) (st : AvatarState) (f : DynFrame) :
    get_frame (rs ++ [r]) aid = get_frame (rs ++ [r']) aid ∧
      avatar_init (rs ++ [r]) aid debug = avatar_init (rs ++ [r']) aid debug ∧
      on_frame st (rs ++ [r]) = on_frame st (rs ++ [r']) ∧
      get_frame [Record.avsm aid f] aid =
        Except.error ("No avatar data found for " ++ aid) := by
  have hgf : ∀ (s : String), get_frame (rs ++ [r]) s = get_frame (rs ++ [r']) s := by
    intro s
    unfold get_frame
    rw [take_length_sub_one_append, take_length_sub_one_append]
  refine ⟨hgf aid, ?_, ?_, rfl⟩
  · unfold avatar_init
    rw [take_length_sub_one_append, take_length_sub_one_append, hgf aid]
  · unfold on_frame
    rw [take_length_sub_one_append, take_length_sub_one_append, hgf st.id]

/-- C6: each missing-required-record situation raises immediately rather
than returning a recoverable result: avatar construction raises when the
snapshot contains no segmentation-colors record whose id equals the avatar
identifier; a frame request (used by construction and `on_frame`) raises
when the snapshot contains no dynamic-state record whose avatar id equals
the avatar identifier; and `pick_up` raises when the given object id is
absent from the bounds record.  In each case the operation returns the
error directly — no retry or fallback is attempted. -/
theorem missing_record_fatal :
    (∀ (resp : List Record) (aid : String) (debug : Bool),
        (∀ r ∈ resp, ∀ parts, r ≠ Record.smsc aid parts) →
        avatar_init resp aid debug =
          Except.error ("No avatar segmentation colors found for " ++ aid)) ∧
    (∀ (resp : List Record) (aid : String),
        (∀ r ∈ resp, ∀ f, r ≠ Record.avsm aid f) →
        get_frame resp aid =
          Except.error ("No avatar data found for " ++ aid)) ∧
    (∀ (st : AvatarState) (resp : List Record),
        (∀ r ∈ resp, ∀ f, r ≠ Record.avsm st.id f) →
        on_frame st resp =
          Except.error ("No avatar data found for " ++ st.id)) ∧
    (∀ (st : AvatarState) (oid : Int) (bounds : List BoundsObject) (wt : Vec3)
        (rots : List ℚ) (links : List (String × String)),
        (∀ b ∈ bounds, b.id ≠ oid) →
        pick_up st oid bounds wt rots links =
          Except.error ("No center found for object " ++ toString oid)) := by
  have hframe : ∀ (resp : List Record) (aid : String),
      (∀ r ∈ resp, ∀ f, r ≠ Record.avsm aid f) →
      get_frame resp aid = Except.error ("No avatar data found for " ++ aid) := by
    intro resp aid h
    unfold get_frame
    rw [findAvsm_eq_none _ _
      (fun x hx => h x (List.take_subset _ _ hx))]
  refine ⟨?_, hframe, ?_, ?_⟩
  · intro resp aid debug h
    unfold avatar_init
    rw [findSmsc_eq_none _ _ (fun x hx => h x (List.take_subset _ _ hx))]
  · intro st resp h
    unfold on_frame
    rw [hframe resp st.id h]
  · intro st oid bounds wt rots links h
    unfold pick_up
    rw [findCenter_eq_none _ _ h]

/-- Witness for C6: the three fatal paths observed on concrete inputs. -/
theorem missing_record_fatal_witness :
    avatar_init [Record.other "x"] "a" false =
        Except.error ("No avatar segmentation colors found for " ++ "a") ∧
      get_frame [Record.other "x"] "a" =
        Except.error ("No avatar data found for " ++ "a") ∧
      on_frame sampleState [Record.other "x"] =
        Except.error ("No avatar data found for " ++ sampleState.id) ∧
      pick_up sampleState 7 [] ⟨0, 0, 0⟩ [] [] =
        Except.error ("No center found for object " ++ toString (7 : Int)) := by
  have habs : ∀ r ∈ [Record.other "x"], ∀ (f : DynFrame), r ≠ Record.avsm "a" f := by
    intro r hr f
    simp only [List.mem_singleton] at hr
    subst hr
    simp
  refine ⟨missing_record_fatal.1 _ _ _ ?_, missing_record_fatal.2.1 _ _ habs,
          missing_record_fatal.2.2.1 sampleState _ habs,
          missing_record_fatal.2.2.2 _ _ _ _ _ _ ?_⟩
  · intro r hr parts
    simp only [List.mem_singleton] at hr
    subst hr
    simp
  · intro b hb
    simp at hb

/-- C1 (amended): for every arm whose slot holds a goal with a non-`None`
target, one call of `on_frame` evaluates the goal against the new frame in
this priority order: if the distance from the new frame's mitten position
for that arm to the stored target is `< 0.1` (squared-distance form
`< 1/100`), the stop sequence for that arm is produced and the slot is
cleared; otherwise, if `pick_up_id` is set and that id appears in the new
frame's held-left or held-right list, the stop sequence is produced and the
slot is cleared with no grasp-attempt commands; otherwise, if `pick_up_id`
is set and not held, exactly one proximity-grasp command and one grasp
command for that object id are produced and the goal is kept; otherwise the
goal is kept with its target and `pick_up_id` unchanged — only its scratch
`previous_distance` attribute is set to the just-computed distance — and no
commands are produced for that arm.  Each arm's step-3 commands are what
`on_frame` appends to the returned command list (left arm first). -/
theorem on_frame_goal_eval (st : AvatarState) (resp : List Record)
    (frame : DynFrame) (arm : Arm) (goal : IKGoal) (target : Vec3)
    (hf : get_frame resp st.id = Except.ok frame)
    (hg : goalOf st arm = some goal) (ht : goal.target = some target) :
    (∃ st', on_frame st resp =
        Except.ok (st',
          (armGoalStep st frame Arm.left).2 ++ (armGoalStep st frame Arm.right).2)) ∧
    (distSq (mittenOf frame arm) target < 1/100 →
      armGoalStep st frame arm = (none, stop_arms st arm)) ∧
    (¬ distSq (mittenOf frame arm) target < 1/100 →
      ∀ oid, goal.pick_up_id = some oid →
        ((oid ∈ frame.heldLeft ∨ oid ∈ frame.heldRight) →
          armGoalStep st frame arm = (none, stop_arms st arm)) ∧
        (¬(oid ∈ frame.heldLeft ∨ oid ∈ frame.heldRight) →
          armGoalStep st frame arm =
            (some goal,
             [Command.pickUpProximity (3/20) (1/10) 1000 (decide (arm = Arm.left))
                st.id [oid],
              Command.pickUpCmd 1000 (decide (arm = Arm.left)) [oid] st.id]))) ∧
    (¬ distSq (mittenOf frame arm) target < 1/100 → goal.pick_up_id = none →
      armGoalStep st frame arm =
        (some { goal with
                  previous_distance := some (distSq (mittenOf frame arm) target) },
         [])) := by
  refine ⟨⟨_, on_frame_ok st resp frame hf⟩, ?_, ?_, ?_⟩
  · intro hd
    exact armGoalStep_converged st frame arm goal target hg ht hd
  · intro hd oid hpid
    exact ⟨fun hheld => armGoalStep_held st frame arm goal target oid hg ht hd hpid hheld,
           fun hnot => armGoalStep_grasp st frame arm goal target oid hg ht hd hpid hnot⟩
  · intro hd hpid
    exact armGoalStep_seek st frame arm goal target hg ht hd hpid

/-- Counterexample to C1 as stated: in the pure-seek branch the goal is
*not* kept unchanged — `on_frame` writes the goal's `previous_distance`
attribute.  Concretely, a left arm Seeking `(0, 0, 2)` from a mitten at the
origin (distance 2, not converged; angles still moving so the stall check
keeps the slot) ends the tick with its goal mutated. -/
theorem on_frame_seek_goal_mutated :
    on_frame seekState [Record.avsm "a" movedFrame, Record.other "end"] =
      Except.ok
        ({ seekState with
            frame := movedFrame
            goalLeft := some ⟨some ⟨0, 0, 2⟩, none, some 4⟩ }, []) ∧
      (some (⟨some ⟨0, 0, 2⟩, none, some 4⟩ : IKGoal) ≠ goalOf seekState Arm.left) := by
  constructor
  · rw [on_frame_ok seekState [Record.avsm "a" movedFrame, Record.other "end"]
          movedFrame rfl,
        armGoalStep_seek seekState movedFrame Arm.left seekGoal ⟨0, 0, 2⟩ rfl rfl
          (by norm_num [distSq, mittenOf, movedFrame, sampleFrame]) rfl,
        armGoalStep_empty seekState movedFrame Arm.right rfl]
    norm_num [stallCheck, stallCheck_some, seekState, sampleState, sampleFrame,
      movedFrame, anglesOf, ratAbs, distSq, mittenOf, seekGoal,
      aggregateCollisions, goalOf]
  · simp [goalOf, seekState, sampleState, seekGoal]

/-- Witness for C1: the amended theorem applied to the Seeking state
`seekState` on a concrete snapshot. -/
theorem on_frame_goal_eval_witness :
    (∃ st', on_frame seekState [Record.avsm "a" movedFrame, Record.other "end"] =
        Except.ok (st',
          (armGoalStep seekState movedFrame Arm.left).2 ++
            (armGoalStep seekState movedFrame Arm.right).2)) ∧
    (distSq (mittenOf movedFrame Arm.left) ⟨0, 0, 2⟩ < 1/100 →
      armGoalStep seekState movedFrame Arm.left = (none, stop_arms seekState Arm.left)) ∧
    (¬ distSq (mittenOf movedFrame Arm.left) ⟨0, 0, 2⟩ < 1/100 →
      ∀ oid, seekGoal.pick_up_id = some oid →
        ((oid ∈ movedFrame.heldLeft ∨ oid ∈ movedFrame.heldRight) →
          armGoalStep seekState movedFrame Arm.left =
            (none, stop_arms seekState Arm.left)) ∧
        (¬(oid ∈ movedFrame.heldLeft ∨ oid ∈ movedFrame.heldRight) →
          armGoalStep seekState movedFrame Arm.left =
            (some seekGoal,
             [Command.pickUpProximity (3/20) (1/10) 1000
                (decide (Arm.left = Arm.left)) seekState.id [oid],
              Command.pickUpCmd 1000 (decide (Arm.left = Arm.left)) [oid]
                seekState.id]))) ∧
    (¬ distSq (mittenOf movedFrame Arm.left) ⟨0, 0, 2⟩ < 1/100 →
      seekGoal.pick_up_id = none →
      armGoalStep seekState movedFrame Arm.left =
        (some { seekGoal with
                  previous_distance :=
                    some (distSq (mittenOf movedFrame Arm.left) ⟨0, 0, 2⟩) },
         [])) :=
  on_frame_goal_eval seekState [Record.avsm "a" movedFrame, Record.other "end"]
    movedFrame Arm.left seekGoal ⟨0, 0, 2⟩ rfl rfl rfl

/-- C2: for every arm whose slot still holds a goal after the
convergence/acquisition step of `on_frame` (dummy goals included), if the
absolute difference between the previous current frame's and the new
frame's joint angles is `≤ 0.03` for every (zipped) joint of that arm, the
slot is cleared and no commands beyond the step-3 commands are emitted; if
any joint differs by more than `0.03` the goal is kept; and the state
`on_frame` returns carries the new frame (the stall comparison itself reads
the *old* stored frame `st.frame` against the new one). -/
theorem on_frame_stall_check (st : AvatarState) (resp : List Record)
    (frame : DynFrame) (arm : Arm) (goal : IKGoal)
    (hf : get_frame resp st.id = Except.ok frame)
    (h3 : (armGoalStep st frame arm).1 = some goal) :
    ∃ st' cmds, on_frame st resp = Except.ok (st', cmds) ∧
      cmds = (armGoalStep st frame Arm.left).2 ++ (armGoalStep st frame Arm.right).2 ∧
      st'.frame = frame ∧
      ((∀ p ∈ (anglesOf st.frame arm).zip (anglesOf frame arm),
          |p.1 - p.2| ≤ 3/100) → goalOf st' arm = none) ∧
      ((∃ p ∈ (anglesOf st.frame arm).zip (anglesOf frame arm),
          3/100 < |p.1 - p.2|) → goalOf st' arm = some goal) := by
  refine ⟨_, _, on_frame_ok st resp frame hf, rfl, rfl, ?_, ?_⟩
  · intro hall
    have hmov : ((anglesOf st.frame arm).zip (anglesOf frame arm)).any
        (fun p => decide (3/100 < ratAbs (p.1 - p.2))) = false := by
      rw [List.any_eq_false]
      intro p hp
      rw [ratAbs_eq_abs]
      simpa using not_lt.mpr (hall p hp)
    cases arm with
    | left =>
      simp only [goalOf]
      rw [h3, stallCheck_some, hmov]
      simp
    | right =>
      simp only [goalOf]
      rw [h3, stallCheck_some, hmov]
      simp
  · rintro ⟨p, hp, hlt⟩
    have hmov : ((anglesOf st.frame arm).zip (anglesOf frame arm)).any
        (fun p => decide (3/100 < ratAbs (p.1 - p.2))) = true := by
      rw [List.any_eq_true]
      exact ⟨p, hp, by rw [ratAbs_eq_abs]; simpa using hlt⟩
    cases arm with
    | left =>
      simp only [goalOf]
      rw [h3, stallCheck_some, hmov]
      simp
    | right =>
      simp only [goalOf]
      rw [h3, stallCheck_some, hmov]
      simp

/-- Witness for C2: the stall theorem applied to a dummy (Settling) goal on
a concrete snapshot whose frame repeats the stored frame. -/
theorem on_frame_stall_check_witness :
    ∃ st' cmds,
      on_frame settlingState [Record.avsm "a" sampleFrame, Record.other "end"] =
        Except.ok (st', cmds) ∧
      cmds = (armGoalStep settlingState sampleFrame Arm.left).2 ++
        (armGoalStep settlingState sampleFrame Arm.right).2 ∧
      st'.frame = sampleFrame ∧
      ((∀ p ∈ (anglesOf settlingState.frame Arm.left).zip
          (anglesOf sampleFrame Arm.left), |p.1 - p.2| ≤ 3/100) →
        goalOf st' Arm.left = none) ∧
      ((∃ p ∈ (anglesOf settlingState.frame Arm.left).zip
          (anglesOf sampleFrame Arm.left), 3/100 < |p.1 - p.2|) →
        goalOf st' Arm.left = some dummyGoal) :=
  on_frame_stall_check settlingState [Record.avsm "a" sampleFrame, Record.other "end"]
    sampleFrame Arm.left dummyGoal rfl rfl

/-- C3: the stop sequence for an arm emits, for each of that arm's 6
joints, exactly three commands — one hold-angle command whose angle is the
joint's current angle read from the stored current frame, folded to
`180 - angle` when the angle exceeds 90, one force adjustment of `-80`
(negating the `+80` bonus of `bend_arm`), and one damper adjustment of
`+300` (negating the `-300` delta of `bend_arm`) — so for a converged
left-arm goal `on_frame` returns exactly that 18-command stop sequence. -/
theorem stop_sequence_shape (st : AvatarState) (resp : List Record)
    (frame : DynFrame) (goal : IKGoal) (target : Vec3)
    (a0 a1 a2 a3 a4 a5 : ℚ)
    (hgl : st.goalLeft = some goal) (ht : goal.target = some target)
    (hgr : st.goalRight = none)
    (hf : get_frame resp st.id = Except.ok frame)
    (hconv : distSq frame.mittenLeft target < 1/100)
    (h6 : st.frame.anglesLeft = [a0, a1, a2, a3, a4, a5]) :
    (∃ st', on_frame st resp = Except.ok (st', stop_arms st Arm.left)) ∧
    stop_arms st Arm.left =
      [Command.bendArmJointTo (foldAngle a0) "shoulder_left" "pitch" st.id,
       Command.adjustJointForceBy (-80) "shoulder_left" "pitch" st.id,
       Command.adjustJointDamperBy 300 "shoulder_left" "pitch" st.id,
       Command.bendArmJointTo (foldAngle a1) "shoulder_left" "yaw" st.id,
       Command.adjustJointForceBy (-80) "shoulder_left" "yaw" st.id,
       Command.adjustJointDamperBy 300 "shoulder_left" "yaw" st.id,
       Command.bendArmJointTo (foldAngle a2) "shoulder_left" "roll" st.id,
       Command.adjustJointForceBy (-80) "shoulder_left" "roll" st.id,
       Command.adjustJointDamperBy 300 "shoulder_left" "roll" st.id,
       Command.bendArmJointTo (foldAngle a3) "elbow_left" "pitch" st.id,
       Command.adjustJointForceBy (-80) "elbow_left" "pitch" st.id,
       Command.adjustJointDamperBy 300 "elbow_left" "pitch" st.id,
       Command.bendArmJointTo (foldAngle a4) "wrist_left" "roll" st.id,
       Command.adjustJointForceBy (-80) "wrist_left" "roll" st.id,
       Command.adjustJointDamperBy 300 "wrist_left" "roll" st.id,
       Command.bendArmJointTo (foldAngle a5) "wrist_left" "pitch" st.id,
       Command.adjustJointForceBy (-80) "wrist_left" "pitch" st.id,
       Command.adjustJointDamperBy 300 "wrist_left" "pitch" st.id] := by
  have hgL : goalOf st Arm.left = some goal := hgl
  have hdL : distSq (mittenOf frame Arm.left) target < 1/100 := hconv
  have hstepL := armGoalStep_converged st frame Arm.left goal target hgL ht hdL
  have hstepR := armGoalStep_empty st frame Arm.right hgr
  constructor
  · refine ⟨{ st with
        frame := frame
        collisions :=
          (aggregateCollisions (resp.take (resp.length - 1))
            (st.body_parts_static.map BodyPartStatic.o_id)).1
        env_collisions :=
          (aggregateCollisions (resp.take (resp.length - 1))
            (st.body_parts_static.map BodyPartStatic.o_id)).2
        goalLeft := stallCheck st frame Arm.left (armGoalStep st frame Arm.left).1
        goalRight := stallCheck st frame Arm.right (armGoalStep st frame Arm.right).1 },
      ?_⟩
    rw [on_frame_ok st resp frame hf, hstepL, hstepR]
    simp
  · unfold stop_arms
    rw [show anglesOf st.frame Arm.left = st.frame.anglesLeft from rfl, h6]
    simp [JOINTS, mkJoint, BEND_FORCE, BEND_DAMPER]

/-- Witness for C3: the converged state `convergedState` on a concrete
snapshot, with all six left-arm angles zero. -/
theorem stop_sequence_shape_witness :
    (∃ st', on_frame convergedState [Record.avsm "a" movedFrame, Record.other "end"] =
        Except.ok (st', stop_arms convergedState Arm.left)) ∧
    stop_arms convergedState Arm.left =
      [Command.bendArmJointTo (foldAngle 0) "shoulder_left" "pitch" convergedState.id,
       Command.adjustJointForceBy (-80) "shoulder_left" "pitch" convergedState.id,
       Command.adjustJointDamperBy 300 "shoulder_left" "pitch" convergedState.id,
       Command.bendArmJointTo (foldAngle 0) "shoulder_left" "yaw" convergedState.id,
       Command.adjustJointForceBy (-80) "shoulder_left" "yaw" convergedState.id,
       Command.adjustJointDamperBy 300 "shoulder_left" "yaw" convergedState.id,
       Command.bendArmJointTo (foldAngle 0) "shoulder_left" "roll" convergedState.id,
       Command.adjustJointForceBy (-80) "shoulder_left" "roll" convergedState.id,
       Command.adjustJointDamperBy 300 "shoulder_left" "roll" convergedState.id,
       Command.bendArmJointTo (foldAngle 0) "elbow_left" "pitch" convergedState.id,
       Command.adjustJointForceBy (-80) "elbow_left" "pitch" convergedState.id,
       Command.adjustJointDamperBy 300 "elbow_left" "pitch" convergedState.id,
       Command.bendArmJointTo (foldAngle 0) "wrist_left" "roll" convergedState.id,
       Command.adjustJointForceBy (-80) "wrist_left" "roll" convergedState.id,
       Command.adjustJointDamperBy 300 "wrist_left" "roll" convergedState.id,
       Command.bendArmJointTo (foldAngle 0) "wrist_left" "pitch" convergedState.id,
       Command.adjustJointForceBy (-80) "wrist_left" "pitch" convergedState.id,
       Command.adjustJointDamperBy 300 "wrist_left" "pitch" convergedState.id] :=
  stop_sequence_shape convergedState [Record.avsm "a" movedFrame, Record.other "end"]
    movedFrame ⟨some ⟨0, 0, 0⟩, none, none⟩ ⟨0, 0, 0⟩ 0 0 0 0 0 0
    rfl rfl rfl rfl (by norm_num [distSq, movedFrame, sampleFrame, mittenOf]) rfl

/-- C10: calling `bend_arm` on an arm whose slot already holds an active
goal overwrites that slot with a fresh goal (`pick_up_id` cleared to
`None`) without emitting the stop sequence for the old goal; the returned
command list contains only bend-joint, force-increase (`+80`) and
damper-decrease (`-300`) commands and never the reverting adjustments
(`-80` / `+300`), so the force/damper bonuses of the superseded goal are
never reversed. -/
theorem bend_arm_overwrites_goal (st : AvatarState) (arm : Arm) (g : IKGoal)
    (world_target : Vec3) (rotations_deg : List ℚ)
    (links : List (String × String))
    (hdebug : st.debug = false) (hactive : goalOf st arm = some g) :
    goalOf (bend_arm st arm world_target rotations_deg links).1 arm =
      some ⟨some world_target, none, none⟩ ∧
    (∀ c ∈ (bend_arm st arm world_target rotations_deg links).2,
      (∃ a j x, c = Command.bendArmJointTo a j x st.id) ∨
      (∃ j x, c = Command.adjustJointForceBy 80 j x st.id) ∨
      (∃ j x, c = Command.adjustJointDamperBy (-300) j x st.id)) ∧
    (∀ (j x aid : String),
      Command.adjustJointForceBy (-80) j x aid ∉
        (bend_arm st arm world_target rotations_deg links).2 ∧
      Command.adjustJointDamperBy 300 j x aid ∉
        (bend_arm st arm world_target rotations_deg links).2) := by
  have hcmds : ∀ c ∈ (bend_arm st arm world_target rotations_deg links).2,
      (∃ a j x, c = Command.bendArmJointTo a j x st.id) ∨
      (∃ j x, c = Command.adjustJointForceBy 80 j x st.id) ∨
      (∃ j x, c = Command.adjustJointDamperBy (-300) j x st.id) := by
    intro c hc
    simp only [bend_arm, hdebug, if_false, List.nil_append, Bool.false_eq_true,
      List.mem_flatMap] at hc
    obtain ⟨cr, hcr, hc⟩ := hc
    simp only [List.mem_cons, List.mem_singleton, List.not_mem_nil, or_false] at hc
    rcases hc with hc | hc | hc
    · exact Or.inl ⟨cr.2, _, _, hc⟩
    · exact Or.inr (Or.inl ⟨_, _, by rw [hc]; rfl⟩)
    · exact Or.inr (Or.inr ⟨_, _, by rw [hc]; rfl⟩)
  refine ⟨?_, hcmds, ?_⟩
  · cases arm with
    | left => simp [bend_arm, setGoal, goalOf]
    | right => simp [bend_arm, setGoal, goalOf]
  · intro j x aid
    constructor
    · intro hmem
      rcases hcmds _ hmem with ⟨a, j', x', he⟩ | ⟨j', x', he⟩ | ⟨j', x', he⟩
      · exact Command.noConfusion he
      · injection he with h1 h2 h3 h4
        norm_num at h1
      · exact Command.noConfusion he
    · intro hmem
      rcases hcmds _ hmem with ⟨a, j', x', he⟩ | ⟨j', x', he⟩ | ⟨j', x', he⟩
      · exact Command.noConfusion he
      · exact Command.noConfusion he
      · injection he with h1 h2 h3 h4
        norm_num at h1

/-- Witness for C10: `bend_arm` applied to the Seeking state `seekState`,
whose left slot is occupied. -/
theorem bend_arm_overwrites_goal_witness :
    goalOf (bend_arm seekState Arm.left ⟨1, 1, 1⟩ [0, 0, 0]
        [("shoulder", "pitch"), ("elbow", "pitch"), ("mitten", "x")]).1 Arm.left =
      some ⟨some ⟨1, 1, 1⟩, none, none⟩ ∧
    (∀ c ∈ (bend_arm seekState Arm.left ⟨1, 1, 1⟩ [0, 0, 0]
        [("shoulder", "pitch"), ("elbow", "pitch"), ("mitten", "x")]).2,
      (∃ a j x, c = Command.bendArmJointTo a j x seekState.id) ∨
      (∃ j x, c = Command.adjustJointForceBy 80 j x seekState.id) ∨
      (∃ j x, c = Command.adjustJointDamperBy (-300) j x seekState.id)) ∧
    (∀ (j x aid : String),
      Command.adjustJointForceBy (-80) j x aid ∉
        (bend_arm seekState Arm.left ⟨1, 1, 1⟩ [0, 0, 0]
          [("shoulder", "pitch"), ("elbow", "pitch"), ("mitten", "x")]).2 ∧
      Command.adjustJointDamperBy 300 j x aid ∉
        (bend_arm seekState Arm.left ⟨1, 1, 1⟩ [0, 0, 0]
          [("shoulder", "pitch"), ("elbow", "pitch"), ("mitten", "x")]).2) :=
  bend_arm_overwrites_goal seekState Arm.left seekGoal ⟨1, 1, 1⟩ [0, 0, 0]
    [("shoulder", "pitch"), ("elbow", "pitch"), ("mitten", "x")] rfl rfl

/-- C5 (amended): provided at least one of the six supplied named points
lies at Euclidean distance < 10000 (the code's initial `min_distance`
sentinel; squared form `< 100000000`) from the origin,
`get_closest_point_in_bounds` returns one of the supplied named points,
namely the first point in the enumeration order top, bottom, left, right,
front, back whose distance to the origin is ≤ the distance of every other
supplied point. -/
theorem closest_point_first_min (origin : Vec3) (b : BoundsObject)
    (h : ∃ p ∈ get_bounds_dict b, distSq origin p.2 < 100000000) :
    ∃ q ∈ get_bounds_dict b,
      (get_bounds_dict b).find?
          (fun (p : String × Vec3) => (get_bounds_dict b).all
            (fun r => decide (distSq origin p.2 ≤ distSq origin r.2))) = some q ∧
      get_closest_point_in_bounds origin b = some q.2 ∧
      ∀ r ∈ get_bounds_dict b, distSq origin q.2 ≤ distSq origin r.2 := by
  obtain ⟨q, hfind, hfold⟩ :=
    foldl_minStep_first_min origin (get_bounds_dict b) ("", 100000000) h
  have hqmem : q ∈ get_bounds_dict b := List.mem_of_find?_eq_some hfind
  have hqpred := List.find?_some hfind
  rw [Bool.and_eq_true, decide_eq_true_eq, List.all_eq_true] at hqpred
  obtain ⟨hqlt, hqall'⟩ := hqpred
  have hqall : ∀ r ∈ get_bounds_dict b, distSq origin q.2 ≤ distSq origin r.2 :=
    fun r hr => of_decide_eq_true (hqall' r hr)
  have hcongr : (get_bounds_dict b).find?
      (fun (p : String × Vec3) => (get_bounds_dict b).all
        (fun r => decide (distSq origin p.2 ≤ distSq origin r.2))) =
      (get_bounds_dict b).find?
      (fun (p : String × Vec3) => decide (distSq origin p.2 < 100000000) &&
        (get_bounds_dict b).all
          (fun r => decide (distSq origin p.2 ≤ distSq origin r.2))) := by
    apply find?_congr_mem
    intro p hp
    by_cases hall : ∀ r ∈ get_bounds_dict b, distSq origin p.2 ≤ distSq origin r.2
    · obtain ⟨w, hwmem, hw⟩ := h
      have hlt : distSq origin p.2 < 100000000 := lt_of_le_of_lt (hall w hwmem) hw
      rw [decide_eq_true hlt, Bool.true_and]
    · push_neg at hall
      obtain ⟨r1, hr1mem, hr1⟩ := hall
      have hfalse : ((get_bounds_dict b).all
          (fun r => decide (distSq origin p.2 ≤ distSq origin r.2))) = false := by
        rw [List.all_eq_false]
        exact ⟨r1, hr1mem, by simpa using not_le.mpr hr1⟩
      rw [hfalse, Bool.and_false]
  refine ⟨q, hqmem, ?_, ?_, hqall⟩
  · rw [hcongr]
    exact hfind
  · have hlookup : (get_bounds_dict b).lookup q.1 = some q.2 := by
      simp only [get_bounds_dict, List.mem_cons, List.not_mem_nil, or_false] at hqmem
      rcases hqmem with hq | hq | hq | hq | hq | hq <;> subst hq <;> rfl
    simp only [get_closest_point_in_bounds]
    rw [hfold]
    exact hlookup

/-- Counterexample to C5 as stated: when every supplied point lies at
distance ≥ 10000 from the origin (here exactly 10000), the loop's sentinel
is never beaten, the winning name stays `""`, and the final dict access
fails (Python `KeyError`, embedded as `none`) — no supplied point is
returned. -/
theorem closest_point_far_none :
    get_closest_point_in_bounds ⟨10000, 0, 0⟩ zeroBounds = none := by
  have hacc : (get_bounds_dict zeroBounds).foldl
      (minStep ⟨10000, 0, 0⟩) ("", 100000000) = ("", 100000000) := by
    apply foldl_minStep_no_change
    intro p hp
    simp only [get_bounds_dict, zeroBounds, List.mem_cons, List.not_mem_nil,
      or_false] at hp
    rcases hp with hp | hp | hp | hp | hp | hp <;> subst hp <;>
      norm_num [distSq]
  simp only [get_closest_point_in_bounds]
  rw [hacc]
  rfl

/-- Witness for C5: the amended theorem applied to the origin and
`zeroBounds`, whose points are all at distance 0. -/
theorem closest_point_first_min_witness :
    ∃ q ∈ get_bounds_dict zeroBounds,
      (get_bounds_dict zeroBounds).find?
          (fun (p : String × Vec3) => (get_bounds_dict zeroBounds).all
            (fun r => decide (distSq ⟨0, 0, 0⟩ p.2 ≤ distSq ⟨0, 0, 0⟩ r.2))) =
          some q ∧
      get_closest_point_in_bounds ⟨0, 0, 0⟩ zeroBounds = some q.2 ∧
      ∀ r ∈ get_bounds_dict zeroBounds,
        distSq ⟨0, 0, 0⟩ q.2 ≤ distSq ⟨0, 0, 0⟩ r.2 :=
  closest_point_first_min ⟨0, 0, 0⟩ zeroBounds
    ⟨("top", ⟨0, 0, 0⟩), by simp [get_bounds_dict, zeroBounds],
      by norm_num [distSq]⟩

end StickyMitten
